import Mathlib

/-!
# Static code checks orchestration (`cmd/mavenExecuteStaticCodeChecks.go`)

A shallow embedding of `runMavenStaticCodeChecks`, `getSpotBugsMavenParameters`
and `getPmdMavenParameters`.

Conventions of the embedding.

* A Go `[]string` is a `List String`; the nil slice and the empty slice are both `[]`
  (Go's `append`, `range` and `len` do not tell them apart).
* A Go `int` is an `Int`; the program only compares these values with constants and
  renders them, so no overflow can occur.
* A Go `error` is `Option ε`, `none` being `nil`.
* The collaborators of package `maven` and the logger have side effects.  They are
  parameters of the embedding: each is a function on an abstract world state `σ`, and
  every call the program makes is recorded, in program order, in a trace of events.
-/

namespace MavenStaticCodeChecks

/-! ## Data model -/

/-- Modelled from the spec: the generated options struct
`mavenExecuteStaticCodeChecksOptions` (its declaration is not part of the source file);
the fields are those the source reads, with the types of section 6 of the spec. -/
structure mavenExecuteStaticCodeChecksOptions where
  SpotBugs : Bool
  Pmd : Bool
  MavenModulesExcludes : List String
  SpotBugsExcludeFilterFile : String
  SpotBugsIncludeFilterFile : String
  SpotBugsMaxAllowedViolations : Int
  PmdFailurePriority : Int
  PmdMaxAllowedViolations : Int
  ProjectSettingsFile : String
  GlobalSettingsFile : String
  M2Path : String
  LogSuccessfulMavenTransfers : Bool
  InstallArtifacts : Bool
  deriving DecidableEq, Repr

/-- Modelled from the spec: `maven.ExecuteOptions` (declared in package `maven`, not part
of the source file), with the fields the source assigns.  A field the source leaves out
of a struct literal has Go's zero value: `[]`, `""`, `false`. -/
structure ExecuteOptions where
  Goals : List String := []
  Defines : List String := []
  ProjectSettingsFile : String := ""
  GlobalSettingsFile : String := ""
  M2Path : String := ""
  LogSuccessfulMavenTransfers : Bool := false
  deriving DecidableEq, Repr

/-- Modelled from the spec: `maven.EvaluateOptions` (declared in package `maven`, not part
of the source file), with the fields the source assigns at the install call. -/
structure EvaluateOptions where
  M2Path : String := ""
  ProjectSettingsFile : String := ""
  GlobalSettingsFile : String := ""
  deriving DecidableEq, Repr

/-- Modelled from the spec: `strconv.Itoa` of the Go standard library, the decimal
rendering of an integer, with a leading `-` for a negative one. -/
def Itoa (n : Int) : String :=
  if n < 0 then "-" ++ Nat.repr n.natAbs else Nat.repr n.natAbs

/-- One observable action of a run: a warning handed to the logger, a call of
`maven.InstallMavenArtifacts`, a call of `maven.Execute`. -/
inductive Event where
  | Warn (msg : String)
  | Install (options : EvaluateOptions)
  | Exec (options : ExecuteOptions)
  deriving DecidableEq, Repr

/-- The collaborators of package `maven` that `runMavenStaticCodeChecks` calls, over a
world state `σ` and an error type `ε`. -/
structure Collaborators (σ ε : Type) where
  InstallMavenArtifacts : EvaluateOptions → σ → Option ε × σ
  GetTestModulesExcludes : σ → List String
  Execute : ExecuteOptions → σ → Option ε × σ

/-- What a run leaves behind: the returned error, the world state, the trace. -/
structure Outcome (σ ε : Type) where
  err : Option ε
  world : σ
  trace : List Event

/-! ## The program -/

/-- The Go function `getSpotBugsMavenParameters`. -/
def getSpotBugsMavenParameters (config : mavenExecuteStaticCodeChecksOptions) : ExecuteOptions :=
  let defines : List String := []
  let defines :=
    if config.SpotBugsIncludeFilterFile ≠ "" then
      defines ++ ["-Dspotbugs.includeFilterFile=" ++ config.SpotBugsIncludeFilterFile]
    else defines
  let defines :=
    if config.SpotBugsExcludeFilterFile ≠ "" then
      defines ++ ["-Dspotbugs.excludeFilterFile=" ++ config.SpotBugsExcludeFilterFile]
    else defines
  let defines :=
    if config.SpotBugsMaxAllowedViolations ≠ 0 then
      defines ++ ["-Dspotbugs.maxAllowedViolations=" ++ Itoa config.SpotBugsMaxAllowedViolations]
    else defines
  { Goals := ["com.github.spotbugs:spotbugs-maven-plugin:4.1.4:check"]
    Defines := defines }

/-- The Go function `getPmdMavenParameters`; the second component is the list of
warnings it hands to the logger (`%v` renders the integer in decimal). -/
def getPmdMavenParameters (config : mavenExecuteStaticCodeChecksOptions) :
    ExecuteOptions × List String :=
  let defines : List String := []
  let defines :=
    if config.PmdMaxAllowedViolations ≠ 0 then
      defines ++ ["-Dpmd.maxAllowedViolations=" ++ Itoa config.PmdMaxAllowedViolations]
    else defines
  let (defines, warnings) :=
    if config.PmdFailurePriority ≥ 1 ∧ config.PmdFailurePriority ≤ 5 then
      (defines ++ ["-Dpmd.failurePriority=" ++ Itoa config.PmdFailurePriority], [])
    else if config.PmdFailurePriority ≠ 0 then
      (defines, ["Pmd failure priority must be a value between 1 and 5. "
        ++ Itoa config.PmdFailurePriority ++ " was configured. Defaulting to 5."])
    else (defines, [])
  ({ Goals := ["org.apache.maven.plugins:maven-pmd-plugin:3.13.0:check"]
     Defines := defines }, warnings)

/-- The Go function `runMavenStaticCodeChecks`, started in world `w`. -/
def runMavenStaticCodeChecks {σ ε : Type} (env : Collaborators σ ε)
    (config : mavenExecuteStaticCodeChecksOptions) (w : σ) : Outcome σ ε :=
  let defines : List String := []
  let goals : List String := []
  if !config.SpotBugs && !config.Pmd then
    { err := none, world := w
      trace := [Event.Warn "Neither SpotBugs nor Pmd are configured. Skipping step execution"] }
  else
    let (installErr, w, trace) :=
      if config.InstallArtifacts then
        let options : EvaluateOptions :=
          { M2Path := config.M2Path
            ProjectSettingsFile := config.ProjectSettingsFile
            GlobalSettingsFile := config.GlobalSettingsFile }
        let r := env.InstallMavenArtifacts options w
        (r.1, r.2, [Event.Install options])
      else (none, w, [])
    match installErr with
    | some err => { err := some err, world := w, trace := trace }
    | none =>
      let defines := defines ++ env.GetTestModulesExcludes w
      let defines :=
        config.MavenModulesExcludes.foldl
          (fun defines module => (defines ++ ["-pl"]) ++ ["!" ++ module]) defines
      let (defines, goals) :=
        if config.SpotBugs then
          let spotBugsMavenParameters := getSpotBugsMavenParameters config
          (defines ++ spotBugsMavenParameters.Defines, goals ++ spotBugsMavenParameters.Goals)
        else (defines, goals)
      let (defines, goals, trace) :=
        if config.Pmd then
          let pmdMavenParameters := getPmdMavenParameters config
          (defines ++ pmdMavenParameters.1.Defines, goals ++ pmdMavenParameters.1.Goals,
            trace ++ pmdMavenParameters.2.map Event.Warn)
        else (defines, goals, trace)
      let finalMavenOptions : ExecuteOptions :=
        { Goals := goals
          Defines := defines
          ProjectSettingsFile := config.ProjectSettingsFile
          GlobalSettingsFile := config.GlobalSettingsFile
          M2Path := config.M2Path
          LogSuccessfulMavenTransfers := config.LogSuccessfulMavenTransfers }
      let r := env.Execute finalMavenOptions w
      { err := r.1, world := r.2, trace := trace ++ [Event.Exec finalMavenOptions] }


/-! ## Vocabulary of the specification -/

/-- Go's `strings.HasPrefix p` on the characters of the two strings. -/
def beginsWith (p s : String) : Bool := p.data.isPrefixOf s.data

/-- The options of the `maven.Execute` calls of a trace, in order. -/
def execCalls : List Event → List ExecuteOptions
  | [] => []
  | Event.Exec o :: t => o :: execCalls t
  | _ :: t => execCalls t

/-- The options of the `maven.InstallMavenArtifacts` calls of a trace, in order. -/
def installCalls : List Event → List EvaluateOptions
  | [] => []
  | Event.Install o :: t => o :: installCalls t
  | _ :: t => installCalls t

/-- The warnings of a trace, in order. -/
def warnings : List Event → List String
  | [] => []
  | Event.Warn m :: t => m :: warnings t
  | _ :: t => warnings t

/-- The pair `-pl`, `!<module>` for each excluded module, in the order listed. -/
def modulesExcludeParams : List String → List String
  | [] => []
  | m :: ms => "-pl" :: ("!" ++ m) :: modulesExcludeParams ms

/-- The options the install collaborator is called with. -/
def installOptions (config : mavenExecuteStaticCodeChecksOptions) : EvaluateOptions :=
  { M2Path := config.M2Path
    ProjectSettingsFile := config.ProjectSettingsFile
    GlobalSettingsFile := config.GlobalSettingsFile }

/-- The error of the install step: `none` when no install is requested. -/
def installError {σ ε : Type} (env : Collaborators σ ε)
    (config : mavenExecuteStaticCodeChecksOptions) (w : σ) : Option ε :=
  if config.InstallArtifacts then (env.InstallMavenArtifacts (installOptions config) w).1 else none

/-- The world in which the checks are assembled: after the install step, if requested. -/
def worldAfterInstall {σ ε : Type} (env : Collaborators σ ε)
    (config : mavenExecuteStaticCodeChecksOptions) (w : σ) : σ :=
  if config.InstallArtifacts then (env.InstallMavenArtifacts (installOptions config) w).2 else w

/-- A run reaches the invocation step: at least one check is enabled, and the install
step is not requested or succeeds. -/
def reachesInvocation {σ ε : Type} (env : Collaborators σ ε)
    (config : mavenExecuteStaticCodeChecksOptions) (w : σ) : Prop :=
  (config.SpotBugs = true ∨ config.Pmd = true) ∧ (installError env config w).isNone = true

instance {σ ε : Type} (env : Collaborators σ ε)
    (config : mavenExecuteStaticCodeChecksOptions) (w : σ) :
    Decidable (reachesInvocation env config w) := by
  unfold reachesInvocation; infer_instance

/-- The exclusion parameters of a run: the externally resolved test-module excludes,
then the pairs of the excluded modules. -/
def exclusionParams {σ ε : Type} (env : Collaborators σ ε)
    (config : mavenExecuteStaticCodeChecksOptions) (w : σ) : List String :=
  env.GetTestModulesExcludes (worldAfterInstall env config w)
    ++ modulesExcludeParams config.MavenModulesExcludes

/-- The invocation plan the specification describes: goals and defines of the enabled
checks, the bug detector first, after the exclusion parameters, and the four
environment fields of the configuration. -/
def consolidatedPlan {σ ε : Type} (env : Collaborators σ ε)
    (config : mavenExecuteStaticCodeChecksOptions) (w : σ) : ExecuteOptions :=
  { Goals := (if config.SpotBugs then (getSpotBugsMavenParameters config).Goals else [])
      ++ (if config.Pmd then (getPmdMavenParameters config).1.Goals else [])
    Defines := exclusionParams env config w
      ++ (if config.SpotBugs then (getSpotBugsMavenParameters config).Defines else [])
      ++ (if config.Pmd then (getPmdMavenParameters config).1.Defines else [])
    ProjectSettingsFile := config.ProjectSettingsFile
    GlobalSettingsFile := config.GlobalSettingsFile
    M2Path := config.M2Path
    LogSuccessfulMavenTransfers := config.LogSuccessfulMavenTransfers }

/-! ## Sample inputs -/

/-- A configuration with both checks enabled, install requested, two excluded modules
and an out-of-range PMD failure priority. -/
def sampleConfig : mavenExecuteStaticCodeChecksOptions :=
  { SpotBugs := true, Pmd := true, MavenModulesExcludes := ["a", "b"]
    SpotBugsExcludeFilterFile := "exclude.xml", SpotBugsIncludeFilterFile := "include.xml"
    SpotBugsMaxAllowedViolations := 5, PmdFailurePriority := 7, PmdMaxAllowedViolations := -3
    ProjectSettingsFile := "settings.xml", GlobalSettingsFile := "global.xml", M2Path := ".m2"
    LogSuccessfulMavenTransfers := true, InstallArtifacts := true }

/-- A configuration with both checks disabled and install requested. -/
def disabledConfig : mavenExecuteStaticCodeChecksOptions :=
  { sampleConfig with SpotBugs := false, Pmd := false }

/-- Collaborators over a counter world: install succeeds, the test-module excludes are
resolved once install has run, and the executor fails with `"boom"`. -/
def failingExecutor : Collaborators Nat String :=
  { InstallMavenArtifacts := fun _ w => (none, w + 1)
    GetTestModulesExcludes := fun w => if w = 0 then [] else ["-pl", "!integration-tests"]
    Execute := fun _ w => (some "boom", w + 10) }

/-- Collaborators over a counter world whose install step fails with `"no network"`. -/
def failingInstall : Collaborators Nat String :=
  { InstallMavenArtifacts := fun _ w => (some "no network", w + 1)
    GetTestModulesExcludes := fun _ => []
    Execute := fun _ w => (none, w + 10) }

/-- The sample configuration with transfer logging switched off, all else equal. -/
def quietConfig : mavenExecuteStaticCodeChecksOptions :=
  { sampleConfig with LogSuccessfulMavenTransfers := false }

/-- Collaborators over a counter world whose results do not depend on the world: install
succeeds, the test-module excludes are fixed, and the executor fails exactly when it is
handed two goals. -/
def steadyCollaborators : Collaborators Nat String :=
  { InstallMavenArtifacts := fun _ w => (none, w + 1)
    GetTestModulesExcludes := fun _ => ["-pl", "!integration-tests"]
    Execute := fun o w => (if o.Goals.length = 2 then some "violations" else none, w + 10) }

/-- The end-to-end SpotBugs scenario of the specification: only SpotBugs enabled, with a
threshold of five violations. -/
def spotBugsOnlyConfig : mavenExecuteStaticCodeChecksOptions :=
  { sampleConfig with Pmd := false, InstallArtifacts := false }

/-- The end-to-end PMD scenario of the specification: only PMD enabled, with the
out-of-range failure priority seven. -/
def pmdOnlyConfig : mavenExecuteStaticCodeChecksOptions :=
  { sampleConfig with SpotBugs := false, InstallArtifacts := false }

/-! ## Lemmas on the run -/

theorem foldl_pairs (modules init : List String) :
    modules.foldl (fun defines module => defines ++ ["-pl", "!" ++ module]) init
      = init ++ modulesExcludeParams modules := by
  induction modules generalizing init with
  | nil => simp [modulesExcludeParams]
  | cons m ms ih => simp [List.foldl, ih, modulesExcludeParams]

theorem foldl_modules (modules init : List String) :
    modules.foldl (fun defines module => (defines ++ ["-pl"]) ++ ["!" ++ module]) init
      = init ++ modulesExcludeParams modules := by
  simpa using foldl_pairs modules init

theorem run_skip {σ ε : Type} (env : Collaborators σ ε)
    (config : mavenExecuteStaticCodeChecksOptions) (w : σ)
    (hs : config.SpotBugs = false) (hp : config.Pmd = false) :
    runMavenStaticCodeChecks env config w =
      { err := none, world := w
        trace := [Event.Warn "Neither SpotBugs nor Pmd are configured. Skipping step execution"] } := by
  simp [runMavenStaticCodeChecks, hs, hp]

theorem run_install_failed {σ ε : Type} (env : Collaborators σ ε)
    (config : mavenExecuteStaticCodeChecksOptions) (w : σ) (e : ε)
    (hc : config.SpotBugs = true ∨ config.Pmd = true)
    (he : installError env config w = some e) :
    runMavenStaticCodeChecks env config w =
      { err := some e, world := worldAfterInstall env config w
        trace := [Event.Install (installOptions config)] } := by
  have hi : config.InstallArtifacts = true := by
    by_contra h
    simp [installError, h] at he
  simp only [installError, hi, if_true] at he
  simp only [installOptions] at he
  rcases hc with hc | hc <;>
    simp [runMavenStaticCodeChecks, hc, hi, he, worldAfterInstall, installOptions]

theorem run_reaches {σ ε : Type} (env : Collaborators σ ε)
    (config : mavenExecuteStaticCodeChecksOptions) (w : σ)
    (h : reachesInvocation env config w) :
    runMavenStaticCodeChecks env config w =
      { err := (env.Execute (consolidatedPlan env config w) (worldAfterInstall env config w)).1
        world := (env.Execute (consolidatedPlan env config w) (worldAfterInstall env config w)).2
        trace := (if config.InstallArtifacts then [Event.Install (installOptions config)] else [])
          ++ (if config.Pmd then (getPmdMavenParameters config).2.map Event.Warn else [])
          ++ [Event.Exec (consolidatedPlan env config w)] } := by
  obtain ⟨hc, he⟩ := h
  rw [Option.isNone_iff_eq_none] at he
  rcases hi : config.InstallArtifacts
  · rcases hs : config.SpotBugs <;> rcases hp : config.Pmd <;>
      simp_all [runMavenStaticCodeChecks, worldAfterInstall, consolidatedPlan, exclusionParams,
        foldl_modules, foldl_pairs, installOptions]
  · simp only [installError, hi, if_true, installOptions] at he
    rcases hs : config.SpotBugs <;> rcases hp : config.Pmd <;>
      simp_all [runMavenStaticCodeChecks, worldAfterInstall, consolidatedPlan, exclusionParams,
        foldl_modules, foldl_pairs, installOptions]

theorem execCalls_append (s t : List Event) : execCalls (s ++ t) = execCalls s ++ execCalls t := by
  induction s with
  | nil => rfl
  | cons a s ih => cases a <;> simp [execCalls, ih]

theorem installCalls_append (s t : List Event) :
    installCalls (s ++ t) = installCalls s ++ installCalls t := by
  induction s with
  | nil => rfl
  | cons a s ih => cases a <;> simp [installCalls, ih]

theorem warnings_append (s t : List Event) : warnings (s ++ t) = warnings s ++ warnings t := by
  induction s with
  | nil => rfl
  | cons a s ih => cases a <;> simp [warnings, ih]

theorem execCalls_warns (ms : List String) : execCalls (ms.map Event.Warn) = [] := by
  induction ms with
  | nil => rfl
  | cons a s ih => simp [execCalls, ih]

theorem installCalls_warns (ms : List String) : installCalls (ms.map Event.Warn) = [] := by
  induction ms with
  | nil => rfl
  | cons a s ih => simp [installCalls, ih]

theorem warnings_warns (ms : List String) : warnings (ms.map Event.Warn) = ms := by
  induction ms with
  | nil => rfl
  | cons a s ih => simp [warnings, ih]

theorem run_reaches_execCalls {σ ε : Type} (env : Collaborators σ ε)
    (config : mavenExecuteStaticCodeChecksOptions) (w : σ)
    (h : reachesInvocation env config w) :
    execCalls (runMavenStaticCodeChecks env config w).trace = [consolidatedPlan env config w] := by
  rw [run_reaches env config w h]
  rcases hi : config.InstallArtifacts <;> rcases hp : config.Pmd <;>
    simp [execCalls, execCalls_append, execCalls_warns]

theorem run_reaches_installCalls {σ ε : Type} (env : Collaborators σ ε)
    (config : mavenExecuteStaticCodeChecksOptions) (w : σ)
    (h : reachesInvocation env config w) :
    installCalls (runMavenStaticCodeChecks env config w).trace
      = if config.InstallArtifacts then [installOptions config] else [] := by
  rw [run_reaches env config w h]
  rcases hi : config.InstallArtifacts <;> rcases hp : config.Pmd <;>
    simp [installCalls, installCalls_append, installCalls_warns]

theorem run_reaches_warnings {σ ε : Type} (env : Collaborators σ ε)
    (config : mavenExecuteStaticCodeChecksOptions) (w : σ)
    (h : reachesInvocation env config w) :
    warnings (runMavenStaticCodeChecks env config w).trace
      = if config.Pmd then (getPmdMavenParameters config).2 else [] := by
  rw [run_reaches env config w h]
  rcases hi : config.InstallArtifacts <;> rcases hp : config.Pmd <;>
    simp [warnings, warnings_append, warnings_warns]

theorem modulesExcludeParams_length (modules : List String) :
    (modulesExcludeParams modules).length = 2 * modules.length := by
  induction modules with
  | nil => rfl
  | cons m ms ih => simp [modulesExcludeParams, ih]; omega

theorem modulesExcludeParams_get (modules : List String) (i : Nat) (hi : i < modules.length) :
    (modulesExcludeParams modules)[2 * i]? = some "-pl"
      ∧ (modulesExcludeParams modules)[2 * i + 1]? = some ("!" ++ modules.get ⟨i, hi⟩) := by
  induction modules generalizing i with
  | nil => simp at hi
  | cons m ms ih =>
    cases i with
    | zero => simp [modulesExcludeParams]
    | succ j =>
      have hj : j < ms.length := by simpa using hi
      have := ih j hj
      have e1 : 2 * (j + 1) = (2 * j) + 1 + 1 := by omega
      have e2 : 2 * (j + 1) + 1 = (2 * j + 1) + 1 + 1 := by omega
      rw [e2, e1]
      simpa [modulesExcludeParams] using this

theorem run_trichotomy {σ ε : Type} (env : Collaborators σ ε)
    (config : mavenExecuteStaticCodeChecksOptions) (w : σ) :
    (config.SpotBugs = false ∧ config.Pmd = false)
      ∨ ((config.SpotBugs = true ∨ config.Pmd = true) ∧ config.InstallArtifacts = true
          ∧ ∃ e, installError env config w = some e)
      ∨ reachesInvocation env config w := by
  rcases hs : config.SpotBugs <;> rcases hp : config.Pmd
  · exact Or.inl ⟨rfl, rfl⟩
  all_goals
    right
    rcases he : installError env config w with _ | e
    · right; simp [reachesInvocation, hs, hp, he]
    · left
      refine ⟨by simp, ?_, e, rfl⟩
      by_contra hi
      simp [installError, hi] at he

theorem filter_modulesExcludeParams (p : String) (modules : List String)
    (h1 : beginsWith p "-pl" = false) (h2 : ∀ m : String, beginsWith p ("!" ++ m) = false) :
    (modulesExcludeParams modules).filter (beginsWith p) = [] := by
  induction modules with
  | nil => rfl
  | cons m ms ih => simp [modulesExcludeParams, List.filter, h1, h2, ih]

theorem run_install_failed_execCalls {σ ε : Type} (env : Collaborators σ ε)
    (config : mavenExecuteStaticCodeChecksOptions) (w : σ) (e : ε)
    (hc : config.SpotBugs = true ∨ config.Pmd = true)
    (he : installError env config w = some e) :
    execCalls (runMavenStaticCodeChecks env config w).trace = []
      ∧ installCalls (runMavenStaticCodeChecks env config w).trace = [installOptions config]
      ∧ warnings (runMavenStaticCodeChecks env config w).trace = [] := by
  rw [run_install_failed env config w e hc he]
  simp [execCalls, installCalls, warnings]

/-! ## Claims -/

/-- C1: when both `SpotBugs` and `Pmd` are false, whatever the other fields,
`runMavenStaticCodeChecks` returns nil, calls neither the executor nor the install
collaborator, and leaves the world as it was. -/
theorem C1_no_check_enabled_is_noop {σ ε : Type} (env : Collaborators σ ε)
    (config : mavenExecuteStaticCodeChecksOptions) (w : σ)
    (hs : config.SpotBugs = false) (hp : config.Pmd = false) :
    (runMavenStaticCodeChecks env config w).err = none
      ∧ execCalls (runMavenStaticCodeChecks env config w).trace = []
      ∧ installCalls (runMavenStaticCodeChecks env config w).trace = []
      ∧ (runMavenStaticCodeChecks env config w).world = w := by
  rw [run_skip env config w hs hp]
  simp [execCalls, installCalls]

theorem C1_no_check_enabled_is_noop_witness :
    disabledConfig.InstallArtifacts = true
      ∧ (runMavenStaticCodeChecks failingExecutor disabledConfig 0).err = none
      ∧ execCalls (runMavenStaticCodeChecks failingExecutor disabledConfig 0).trace = []
      ∧ installCalls (runMavenStaticCodeChecks failingExecutor disabledConfig 0).trace = []
      ∧ (runMavenStaticCodeChecks failingExecutor disabledConfig 0).world = 0 :=
  ⟨rfl, C1_no_check_enabled_is_noop failingExecutor disabledConfig 0 rfl rfl⟩

/-- C2: in a run that reaches the invocation step the executor is called once, and
what it returns is what `runMavenStaticCodeChecks` returns: the error `e` of an
executor that fails with `e`, nil for an executor that succeeds. -/
theorem C2_executor_result_returned_unchanged {σ ε : Type} (env : Collaborators σ ε)
    (config : mavenExecuteStaticCodeChecksOptions) (w : σ)
    (h : reachesInvocation env config w) :
    (∀ e : ε, (∀ o s, (env.Execute o s).1 = some e) →
        (runMavenStaticCodeChecks env config w).err = some e)
      ∧ ((∀ o s, (env.Execute o s).1 = none) →
        (runMavenStaticCodeChecks env config w).err = none)
      ∧ ∃ plan, execCalls (runMavenStaticCodeChecks env config w).trace = [plan]
          ∧ (runMavenStaticCodeChecks env config w).err
              = (env.Execute plan (worldAfterInstall env config w)).1 := by
  have hcalls := run_reaches_execCalls env config w h
  have herr : (runMavenStaticCodeChecks env config w).err
      = (env.Execute (consolidatedPlan env config w) (worldAfterInstall env config w)).1 := by
    rw [run_reaches env config w h]
  exact ⟨fun e he => herr.trans (he _ _), fun he => herr.trans (he _ _),
    consolidatedPlan env config w, hcalls, herr⟩

theorem C2_executor_result_returned_unchanged_witness :
    reachesInvocation failingExecutor sampleConfig 0
      ∧ (runMavenStaticCodeChecks failingExecutor sampleConfig 0).err = some "boom" :=
  ⟨by decide,
   (C2_executor_result_returned_unchanged failingExecutor sampleConfig 0 (by decide)).1
      "boom" (fun _ _ => rfl)⟩

/-- C3: with a check enabled and install requested, an install collaborator that fails
with `e` makes `runMavenStaticCodeChecks` return `e`; the only action of the run is the
install call, so the executor is not invoked and no check parameters are built. -/
theorem C3_install_failure_aborts {σ ε : Type} (env : Collaborators σ ε)
    (config : mavenExecuteStaticCodeChecksOptions) (w : σ) (e : ε)
    (hc : config.SpotBugs = true ∨ config.Pmd = true)
    (hi : config.InstallArtifacts = true)
    (he : (env.InstallMavenArtifacts (installOptions config) w).1 = some e) :
    (runMavenStaticCodeChecks env config w).err = some e
      ∧ execCalls (runMavenStaticCodeChecks env config w).trace = []
      ∧ (runMavenStaticCodeChecks env config w).trace = [Event.Install (installOptions config)] := by
  have h : installError env config w = some e := by simp [installError, hi, he]
  rw [run_install_failed env config w e hc h]
  simp [execCalls]

theorem C3_install_failure_aborts_witness :
    (runMavenStaticCodeChecks failingInstall sampleConfig 0).err = some "no network"
      ∧ execCalls (runMavenStaticCodeChecks failingInstall sampleConfig 0).trace = []
      ∧ (runMavenStaticCodeChecks failingInstall sampleConfig 0).trace
          = [Event.Install (installOptions sampleConfig)] :=
  C3_install_failure_aborts failingInstall sampleConfig 0 "no network" (Or.inl rfl) rfl rfl

/-- C4: among the defines of `getSpotBugsMavenParameters`, those that begin with
`-Dspotbugs.maxAllowedViolations=` are exactly one, the prefix followed by the decimal
rendering of the configured value, when that value is not zero, and none when it is
zero, whatever the filter paths are. -/
theorem C4_spotbugs_max_violations_param (config : mavenExecuteStaticCodeChecksOptions) :
    (getSpotBugsMavenParameters config).Defines.filter
        (beginsWith "-Dspotbugs.maxAllowedViolations=")
      = if config.SpotBugsMaxAllowedViolations = 0 then []
        else ["-Dspotbugs.maxAllowedViolations=" ++ Itoa config.SpotBugsMaxAllowedViolations] := by
  have h1 : ∀ x : String, beginsWith "-Dspotbugs.maxAllowedViolations="
      ("-Dspotbugs.includeFilterFile=" ++ x) = false := by
    intro x; simp [beginsWith, String.data_append, List.isPrefixOf]
  have h2 : ∀ x : String, beginsWith "-Dspotbugs.maxAllowedViolations="
      ("-Dspotbugs.excludeFilterFile=" ++ x) = false := by
    intro x; simp [beginsWith, String.data_append, List.isPrefixOf]
  have h3 : ∀ x : String, beginsWith "-Dspotbugs.maxAllowedViolations="
      ("-Dspotbugs.maxAllowedViolations=" ++ x) = true := by
    intro x; simp [beginsWith, String.data_append]
  unfold getSpotBugsMavenParameters
  by_cases hi : config.SpotBugsIncludeFilterFile = "" <;>
    by_cases he : config.SpotBugsExcludeFilterFile = "" <;>
    by_cases hn : config.SpotBugsMaxAllowedViolations = 0 <;>
    simp [hi, he, hn, h1, h2, h3, List.filter]

/-- C5: among the defines of `getPmdMavenParameters`, those that begin with
`-Dpmd.failurePriority=` are exactly one, carrying the configured priority `p`, when
`1 ≤ p ≤ 5`, and then no warning is logged; none when `p = 0`, without a warning; and
none when `p` is non-zero and outside `[1,5]`, with exactly one warning. -/
theorem C5_pmd_failure_priority_param (config : mavenExecuteStaticCodeChecksOptions) :
    ((1 ≤ config.PmdFailurePriority ∧ config.PmdFailurePriority ≤ 5) →
        (getPmdMavenParameters config).1.Defines.filter (beginsWith "-Dpmd.failurePriority=")
            = ["-Dpmd.failurePriority=" ++ Itoa config.PmdFailurePriority]
          ∧ (getPmdMavenParameters config).2 = [])
      ∧ (config.PmdFailurePriority = 0 →
        (getPmdMavenParameters config).1.Defines.filter (beginsWith "-Dpmd.failurePriority=") = []
          ∧ (getPmdMavenParameters config).2 = [])
      ∧ ((config.PmdFailurePriority ≠ 0
            ∧ ¬ (1 ≤ config.PmdFailurePriority ∧ config.PmdFailurePriority ≤ 5)) →
        (getPmdMavenParameters config).1.Defines.filter (beginsWith "-Dpmd.failurePriority=") = []
          ∧ (getPmdMavenParameters config).2.length = 1) := by
  have h1 : ∀ x : String, beginsWith "-Dpmd.failurePriority="
      ("-Dpmd.maxAllowedViolations=" ++ x) = false := by
    intro x; simp [beginsWith, String.data_append, List.isPrefixOf]
  have h2 : ∀ x : String, beginsWith "-Dpmd.failurePriority="
      ("-Dpmd.failurePriority=" ++ x) = true := by
    intro x; simp [beginsWith, String.data_append]
  unfold getPmdMavenParameters
  refine ⟨?_, ?_, ?_⟩
  · rintro ⟨hlo, hhi⟩
    by_cases hn : config.PmdMaxAllowedViolations = 0 <;>
      simp [hn, hlo, hhi, h1, h2, List.filter]
  · intro hz
    by_cases hn : config.PmdMaxAllowedViolations = 0 <;>
      simp [hn, hz, h1, h2, List.filter]
  · rintro ⟨hz, hout⟩
    have hout2 : ¬ (config.PmdFailurePriority ≥ 1 ∧ config.PmdFailurePriority ≤ 5) := hout
    by_cases hn : config.PmdMaxAllowedViolations = 0 <;>
      simp [hn, hz, hout2, h1, h2, List.filter]

theorem C5_pmd_failure_priority_param_witness :
    (getPmdMavenParameters sampleConfig).1.Defines.filter (beginsWith "-Dpmd.failurePriority=") = []
      ∧ (getPmdMavenParameters sampleConfig).2.length = 1 :=
  (C5_pmd_failure_priority_param sampleConfig).2.2 ⟨by decide, by decide⟩

/-- C6: in a run that reaches the invocation step, the defines handed to the executor
are the externally resolved test-module excludes, then the pairs `-pl`, `!m` of the
excluded modules in the order listed (two elements per module), then the parameters of
the enabled checks; with no test-module excludes and modules `a`, `b` they begin with
`-pl`, `!a`, `-pl`, `!b`. -/
theorem C6_module_exclusion_params {σ ε : Type} (env : Collaborators σ ε)
    (config : mavenExecuteStaticCodeChecksOptions) (w : σ)
    (h : reachesInvocation env config w) :
    ∃ plan, execCalls (runMavenStaticCodeChecks env config w).trace = [plan]
      ∧ plan.Defines
          = env.GetTestModulesExcludes (worldAfterInstall env config w)
            ++ modulesExcludeParams config.MavenModulesExcludes
            ++ ((if config.SpotBugs then (getSpotBugsMavenParameters config).Defines else [])
              ++ (if config.Pmd then (getPmdMavenParameters config).1.Defines else []))
      ∧ (modulesExcludeParams config.MavenModulesExcludes).length
          = 2 * config.MavenModulesExcludes.length
      ∧ (∀ (i : Nat) (hi : i < config.MavenModulesExcludes.length),
          (modulesExcludeParams config.MavenModulesExcludes)[2 * i]? = some "-pl"
            ∧ (modulesExcludeParams config.MavenModulesExcludes)[2 * i + 1]?
              = some ("!" ++ config.MavenModulesExcludes.get ⟨i, hi⟩))
      ∧ (env.GetTestModulesExcludes (worldAfterInstall env config w) = [] →
          config.MavenModulesExcludes = ["a", "b"] →
          plan.Defines.take 4 = ["-pl", "!a", "-pl", "!b"]
            ∧ exclusionParams env config w = ["-pl", "!a", "-pl", "!b"]) := by
  refine ⟨consolidatedPlan env config w, run_reaches_execCalls env config w h, ?_,
    modulesExcludeParams_length _, fun i hi => modulesExcludeParams_get _ i hi, ?_⟩
  · simp [consolidatedPlan, exclusionParams, List.append_assoc]
  · intro ht hm
    simp [consolidatedPlan, exclusionParams, ht, hm, modulesExcludeParams]

theorem C6_module_exclusion_params_witness :
    reachesInvocation failingExecutor sampleConfig 0
      ∧ ∃ plan, execCalls (runMavenStaticCodeChecks failingExecutor sampleConfig 0).trace = [plan]
          ∧ plan.Defines.take 6 = ["-pl", "!integration-tests", "-pl", "!a", "-pl", "!b"] := by
  refine ⟨by decide, ?_⟩
  obtain ⟨plan, hp, hd, -⟩ :=
    C6_module_exclusion_params failingExecutor sampleConfig 0 (by decide)
  exact ⟨plan, hp, by rw [hd]; decide⟩

/-- C7: with both checks enabled, in a run that reaches the invocation step, the goals
handed to the executor are the SpotBugs goal then the PMD goal, and the defines are the
exclusion parameters, then the defines of `getSpotBugsMavenParameters`, then those of
`getPmdMavenParameters`. -/
theorem C7_both_checks_order {σ ε : Type} (env : Collaborators σ ε)
    (config : mavenExecuteStaticCodeChecksOptions) (w : σ)
    (hs : config.SpotBugs = true) (hp : config.Pmd = true)
    (h : reachesInvocation env config w) :
    ∃ plan, execCalls (runMavenStaticCodeChecks env config w).trace = [plan]
      ∧ plan.Goals = ["com.github.spotbugs:spotbugs-maven-plugin:4.1.4:check",
          "org.apache.maven.plugins:maven-pmd-plugin:3.13.0:check"]
      ∧ plan.Defines
          = (env.GetTestModulesExcludes (worldAfterInstall env config w)
              ++ modulesExcludeParams config.MavenModulesExcludes)
            ++ (getSpotBugsMavenParameters config).Defines
            ++ (getPmdMavenParameters config).1.Defines := by
  refine ⟨consolidatedPlan env config w, run_reaches_execCalls env config w h, ?_, ?_⟩
  · simp [consolidatedPlan, hs, hp, getSpotBugsMavenParameters, getPmdMavenParameters]
  · simp [consolidatedPlan, exclusionParams, hs, hp]

theorem C7_both_checks_order_witness :
    ∃ plan, execCalls (runMavenStaticCodeChecks failingExecutor sampleConfig 0).trace = [plan]
      ∧ plan.Goals = ["com.github.spotbugs:spotbugs-maven-plugin:4.1.4:check",
          "org.apache.maven.plugins:maven-pmd-plugin:3.13.0:check"]
      ∧ plan.Defines
          = (failingExecutor.GetTestModulesExcludes (worldAfterInstall failingExecutor sampleConfig 0)
              ++ modulesExcludeParams sampleConfig.MavenModulesExcludes)
            ++ (getSpotBugsMavenParameters sampleConfig).Defines
            ++ (getPmdMavenParameters sampleConfig).1.Defines :=
  C7_both_checks_order failingExecutor sampleConfig 0 rfl rfl (by decide)

/-- C8: `getSpotBugsMavenParameters` is a total function of the configuration; its goals
are the pinned SpotBugs check goal, and its defines are, in this order, the include
filter parameter iff the include path is non-empty, the exclude filter parameter iff
the exclude path is non-empty, the maximum-violations parameter iff the value is not
zero; the paths are copied as they are. -/
theorem C8_spotbugs_parameters (config : mavenExecuteStaticCodeChecksOptions) :
    (getSpotBugsMavenParameters config).Goals
        = ["com.github.spotbugs:spotbugs-maven-plugin:4.1.4:check"]
      ∧ (getSpotBugsMavenParameters config).Defines
        = (if config.SpotBugsIncludeFilterFile ≠ "" then
              ["-Dspotbugs.includeFilterFile=" ++ config.SpotBugsIncludeFilterFile] else [])
          ++ (if config.SpotBugsExcludeFilterFile ≠ "" then
              ["-Dspotbugs.excludeFilterFile=" ++ config.SpotBugsExcludeFilterFile] else [])
          ++ (if config.SpotBugsMaxAllowedViolations ≠ 0 then
              ["-Dspotbugs.maxAllowedViolations=" ++ Itoa config.SpotBugsMaxAllowedViolations]
              else []) := by
  unfold getSpotBugsMavenParameters
  by_cases hi : config.SpotBugsIncludeFilterFile = "" <;>
    by_cases he : config.SpotBugsExcludeFilterFile = "" <;>
    by_cases hn : config.SpotBugsMaxAllowedViolations = 0 <;>
    simp [hi, he, hn]

/-- C9: `getPmdMavenParameters` is a total function of the configuration; its goals are
the pinned PMD check goal, and its defines are, in this order, the maximum-violations
parameter iff the value is not zero, the failure-priority parameter iff the priority
lies in `[1,5]`. -/
theorem C9_pmd_parameters (config : mavenExecuteStaticCodeChecksOptions) :
    (getPmdMavenParameters config).1.Goals
        = ["org.apache.maven.plugins:maven-pmd-plugin:3.13.0:check"]
      ∧ (getPmdMavenParameters config).1.Defines
        = (if config.PmdMaxAllowedViolations ≠ 0 then
              ["-Dpmd.maxAllowedViolations=" ++ Itoa config.PmdMaxAllowedViolations] else [])
          ++ (if 1 ≤ config.PmdFailurePriority ∧ config.PmdFailurePriority ≤ 5 then
              ["-Dpmd.failurePriority=" ++ Itoa config.PmdFailurePriority] else []) := by
  unfold getPmdMavenParameters
  by_cases hn : config.PmdMaxAllowedViolations = 0 <;>
    by_cases hr : (config.PmdFailurePriority ≥ 1 ∧ config.PmdFailurePriority ≤ 5) <;>
    by_cases hz : config.PmdFailurePriority = 0 <;>
    simp [hn, hr, hz]

/-- C10, as stated, fails: the options of the install call are the same for the sample
configuration, which logs successful transfers, and for the one that differs from it in
that flag only, so that nothing read from the install options equals the configured
`logSuccessfulMavenTransfers`. -/
theorem C10_install_options_lack_transfer_logging :
    installCalls (runMavenStaticCodeChecks failingExecutor sampleConfig 0).trace
        = [{ M2Path := ".m2", ProjectSettingsFile := "settings.xml",
             GlobalSettingsFile := "global.xml" }]
      ∧ installCalls (runMavenStaticCodeChecks failingExecutor quietConfig 0).trace
        = [{ M2Path := ".m2", ProjectSettingsFile := "settings.xml",
             GlobalSettingsFile := "global.xml" }]
      ∧ sampleConfig.LogSuccessfulMavenTransfers = true
      ∧ quietConfig.LogSuccessfulMavenTransfers = false
      ∧ ¬ ∃ read : EvaluateOptions → Bool, ∀ config : mavenExecuteStaticCodeChecksOptions,
          ∀ o ∈ installCalls (runMavenStaticCodeChecks failingExecutor config 0).trace,
            read o = config.LogSuccessfulMavenTransfers := by
  have h1 : installCalls (runMavenStaticCodeChecks failingExecutor sampleConfig 0).trace
        = [{ M2Path := ".m2", ProjectSettingsFile := "settings.xml",
             GlobalSettingsFile := "global.xml" }] := by decide
  have h2 : installCalls (runMavenStaticCodeChecks failingExecutor quietConfig 0).trace
        = [{ M2Path := ".m2", ProjectSettingsFile := "settings.xml",
             GlobalSettingsFile := "global.xml" }] := by decide
  refine ⟨h1, h2, rfl, rfl, ?_⟩
  rintro ⟨read, hread⟩
  have t := hread sampleConfig _ (by rw [h1]; exact List.mem_singleton.mpr rfl)
  have f := hread quietConfig _ (by rw [h2]; exact List.mem_singleton.mpr rfl)
  rw [t] at f
  exact absurd f (by decide)

/-- C10, amended: every install call of a run carries the configuration's `m2Path`,
`projectSettingsFile` and `globalSettingsFile`, and every executor call carries these
three and `logSuccessfulMavenTransfers`, all unchanged; the install call is made when a
check is enabled and install is requested, the executor call when the run reaches the
invocation step. -/
theorem C10_environment_fields_passed_through {σ ε : Type} (env : Collaborators σ ε)
    (config : mavenExecuteStaticCodeChecksOptions) (w : σ) :
    (∀ o ∈ installCalls (runMavenStaticCodeChecks env config w).trace,
        o.M2Path = config.M2Path ∧ o.ProjectSettingsFile = config.ProjectSettingsFile
          ∧ o.GlobalSettingsFile = config.GlobalSettingsFile)
      ∧ (∀ o ∈ execCalls (runMavenStaticCodeChecks env config w).trace,
        o.M2Path = config.M2Path ∧ o.ProjectSettingsFile = config.ProjectSettingsFile
          ∧ o.GlobalSettingsFile = config.GlobalSettingsFile
          ∧ o.LogSuccessfulMavenTransfers = config.LogSuccessfulMavenTransfers)
      ∧ ((config.SpotBugs = true ∨ config.Pmd = true) → config.InstallArtifacts = true →
        (installCalls (runMavenStaticCodeChecks env config w).trace).length = 1)
      ∧ (reachesInvocation env config w →
        (execCalls (runMavenStaticCodeChecks env config w).trace).length = 1) := by
  rcases run_trichotomy env config w with ⟨hs, hp⟩ | ⟨hc, hi, e, he⟩ | h
  · rw [run_skip env config w hs hp]
    simp [installCalls, execCalls, reachesInvocation, hs, hp]
  · rw [run_install_failed env config w e hc he]
    simp [installCalls, execCalls, installOptions, reachesInvocation, he]
  · rw [run_reaches_installCalls env config w h, run_reaches_execCalls env config w h]
    rcases hi : config.InstallArtifacts <;> simp [installOptions, consolidatedPlan]

theorem C10_environment_fields_passed_through_witness :
    (∀ o ∈ execCalls (runMavenStaticCodeChecks failingExecutor sampleConfig 0).trace,
        o.M2Path = ".m2" ∧ o.ProjectSettingsFile = "settings.xml"
          ∧ o.GlobalSettingsFile = "global.xml" ∧ o.LogSuccessfulMavenTransfers = true)
      ∧ (installCalls (runMavenStaticCodeChecks failingExecutor sampleConfig 0).trace).length = 1
      ∧ (execCalls (runMavenStaticCodeChecks failingExecutor sampleConfig 0).trace).length = 1 :=
  ⟨(C10_environment_fields_passed_through failingExecutor sampleConfig 0).2.1,
   (C10_environment_fields_passed_through failingExecutor sampleConfig 0).2.2.1 (Or.inl rfl) rfl,
   (C10_environment_fields_passed_through failingExecutor sampleConfig 0).2.2.2 (by decide)⟩

/-- C11, as stated, fails: the sample configuration has both checks enabled, yet with an
install collaborator that fails the run makes no executor call at all. -/
theorem C11_no_executor_call_after_failed_install :
    (sampleConfig.SpotBugs = true ∨ sampleConfig.Pmd = true)
      ∧ (execCalls (runMavenStaticCodeChecks failingInstall sampleConfig 0).trace).length = 0
      ∧ (execCalls (runMavenStaticCodeChecks failingInstall sampleConfig 0).trace).length ≠ 1 := by
  decide

/-- C11, amended: with at least one check enabled, a run calls the install collaborator
exactly when `installArtifacts` is set, and then once; it calls the executor exactly once
when the install step is not requested or succeeds, and not at all when the install
step fails. -/
theorem C11_invocation_counts {σ ε : Type} (env : Collaborators σ ε)
    (config : mavenExecuteStaticCodeChecksOptions) (w : σ)
    (hc : config.SpotBugs = true ∨ config.Pmd = true) :
    (installCalls (runMavenStaticCodeChecks env config w).trace).length
        = (if config.InstallArtifacts then 1 else 0)
      ∧ (installError env config w = none →
          execCalls (runMavenStaticCodeChecks env config w).trace
            = [consolidatedPlan env config w])
      ∧ (∀ e, installError env config w = some e →
          execCalls (runMavenStaticCodeChecks env config w).trace = []) := by
  have hne : ¬ (config.SpotBugs = false ∧ config.Pmd = false) := by
    rintro ⟨hs, hp⟩
    rcases hc with h | h
    · rw [hs] at h; exact Bool.noConfusion h
    · rw [hp] at h; exact Bool.noConfusion h
  rcases run_trichotomy env config w with hno | ⟨_, hi, e, he⟩ | h
  · exact absurd hno hne
  · obtain ⟨hx, hic, _⟩ := run_install_failed_execCalls env config w e hc he
    refine ⟨by simp [hic, hi], fun hn => ?_, fun _ _ => hx⟩
    rw [he] at hn; exact Option.noConfusion hn
  · refine ⟨?_, fun _ => run_reaches_execCalls env config w h, fun e he => ?_⟩
    · rw [run_reaches_installCalls env config w h]
      rcases hi : config.InstallArtifacts <;> simp
    · have := h.2
      rw [he] at this
      exact Bool.noConfusion this

theorem C11_invocation_counts_witness :
    (installCalls (runMavenStaticCodeChecks failingExecutor sampleConfig 0).trace).length = 1
      ∧ (execCalls (runMavenStaticCodeChecks failingExecutor sampleConfig 0).trace).length = 1 := by
  obtain ⟨hi, hx, -⟩ := C11_invocation_counts failingExecutor sampleConfig 0 (Or.inl rfl)
  exact ⟨hi, by rw [hx rfl]; rfl⟩

/-- C12: with SpotBugs enabled, PMD disabled and a non-zero `spotBugsMaxAllowedViolations`
`n`, a run that reaches the invocation step hands the executor the SpotBugs goal alone and
defines holding `-Dspotbugs.maxAllowedViolations=` followed by the decimal of `n` (for
`n = 5`, `-Dspotbugs.maxAllowedViolations=5`); the defines are the exclusion parameters
and the SpotBugs parameters only, so a define beginning with `-Dpmd.` can only be one of
the externally resolved test-module excludes. -/
theorem C12_spotbugs_only_scenario {σ ε : Type} (env : Collaborators σ ε)
    (config : mavenExecuteStaticCodeChecksOptions) (w : σ)
    (hs : config.SpotBugs = true) (hp : config.Pmd = false)
    (hn : config.SpotBugsMaxAllowedViolations ≠ 0)
    (h : reachesInvocation env config w) :
    ∃ plan, execCalls (runMavenStaticCodeChecks env config w).trace = [plan]
      ∧ plan.Goals = ["com.github.spotbugs:spotbugs-maven-plugin:4.1.4:check"]
      ∧ ("-Dspotbugs.maxAllowedViolations=" ++ Itoa config.SpotBugsMaxAllowedViolations)
          ∈ plan.Defines
      ∧ (config.SpotBugsMaxAllowedViolations = 5 →
          "-Dspotbugs.maxAllowedViolations=5" ∈ plan.Defines)
      ∧ plan.Defines = exclusionParams env config w ++ (getSpotBugsMavenParameters config).Defines
      ∧ plan.Defines.filter (beginsWith "-Dpmd.")
          = (env.GetTestModulesExcludes (worldAfterInstall env config w)).filter
              (beginsWith "-Dpmd.") := by
  have hmem : ("-Dspotbugs.maxAllowedViolations=" ++ Itoa config.SpotBugsMaxAllowedViolations)
      ∈ (getSpotBugsMavenParameters config).Defines := by
    unfold getSpotBugsMavenParameters
    by_cases hi : config.SpotBugsIncludeFilterFile = "" <;>
      by_cases he : config.SpotBugsExcludeFilterFile = "" <;>
      simp [hi, he, hn]
  have hdef : (consolidatedPlan env config w).Defines
      = exclusionParams env config w ++ (getSpotBugsMavenParameters config).Defines := by
    simp [consolidatedPlan, hs, hp]
  have hspot : (getSpotBugsMavenParameters config).Defines.filter (beginsWith "-Dpmd.") = [] := by
    have h1 : ∀ x : String, beginsWith "-Dpmd." ("-Dspotbugs.includeFilterFile=" ++ x) = false := by
      intro x; simp [beginsWith, String.data_append, List.isPrefixOf]
    have h2 : ∀ x : String, beginsWith "-Dpmd." ("-Dspotbugs.excludeFilterFile=" ++ x) = false := by
      intro x; simp [beginsWith, String.data_append, List.isPrefixOf]
    have h3 : ∀ x : String,
        beginsWith "-Dpmd." ("-Dspotbugs.maxAllowedViolations=" ++ x) = false := by
      intro x; simp [beginsWith, String.data_append, List.isPrefixOf]
    unfold getSpotBugsMavenParameters
    by_cases hi : config.SpotBugsIncludeFilterFile = "" <;>
      by_cases he : config.SpotBugsExcludeFilterFile = "" <;>
      simp [hi, he, hn, h1, h2, h3, List.filter]
  have hmod : (modulesExcludeParams config.MavenModulesExcludes).filter (beginsWith "-Dpmd.")
      = [] :=
    filter_modulesExcludeParams _ _ (by decide)
      (fun m => by simp [beginsWith, String.data_append, List.isPrefixOf])
  refine ⟨consolidatedPlan env config w, run_reaches_execCalls env config w h, ?_, ?_, ?_,
    hdef, ?_⟩
  · simp [consolidatedPlan, hs, hp, getSpotBugsMavenParameters]
  · rw [hdef]; exact List.mem_append_right _ hmem
  · intro h5
    rw [hdef]
    have : "-Dspotbugs.maxAllowedViolations=5"
        = "-Dspotbugs.maxAllowedViolations=" ++ Itoa config.SpotBugsMaxAllowedViolations := by
      rw [h5]; decide
    rw [this]; exact List.mem_append_right _ hmem
  · rw [hdef, exclusionParams, List.filter_append, List.filter_append, hspot, hmod]
    simp

theorem C12_spotbugs_only_scenario_witness :
    ∃ plan, execCalls (runMavenStaticCodeChecks failingExecutor spotBugsOnlyConfig 0).trace = [plan]
      ∧ plan.Goals = ["com.github.spotbugs:spotbugs-maven-plugin:4.1.4:check"]
      ∧ "-Dspotbugs.maxAllowedViolations=5" ∈ plan.Defines := by
  obtain ⟨plan, hx, hg, -, h5, -⟩ :=
    C12_spotbugs_only_scenario failingExecutor spotBugsOnlyConfig 0 rfl rfl (by decide) (by decide)
  exact ⟨plan, hx, hg, h5 rfl⟩

/-- C13: with SpotBugs disabled, PMD enabled and a non-zero `pmdFailurePriority` outside
`[1,5]`, a run that reaches the invocation step, whose test-module excludes hold no
failure-priority entry, hands the executor the PMD goal alone and defines none of which
begins with `-Dpmd.failurePriority=`, whatever the excluded modules and
`pmdMaxAllowedViolations` are; and exactly one warning is recorded, the one naming the
configured priority. -/
theorem C13_pmd_out_of_range_scenario {σ ε : Type} (env : Collaborators σ ε)
    (config : mavenExecuteStaticCodeChecksOptions) (w : σ)
    (hs : config.SpotBugs = false) (hp : config.Pmd = true)
    (hz : config.PmdFailurePriority ≠ 0)
    (hout : ¬ (1 ≤ config.PmdFailurePriority ∧ config.PmdFailurePriority ≤ 5))
    (h : reachesInvocation env config w)
    (ht : ∀ s ∈ env.GetTestModulesExcludes (worldAfterInstall env config w),
      beginsWith "-Dpmd.failurePriority=" s = false) :
    ∃ plan, execCalls (runMavenStaticCodeChecks env config w).trace = [plan]
      ∧ plan.Goals = ["org.apache.maven.plugins:maven-pmd-plugin:3.13.0:check"]
      ∧ (∀ s ∈ plan.Defines, beginsWith "-Dpmd.failurePriority=" s = false)
      ∧ warnings (runMavenStaticCodeChecks env config w).trace
          = ["Pmd failure priority must be a value between 1 and 5. "
              ++ Itoa config.PmdFailurePriority ++ " was configured. Defaulting to 5."] := by
  have hout2 : ¬ (config.PmdFailurePriority ≥ 1 ∧ config.PmdFailurePriority ≤ 5) := hout
  have hpmd : ∀ s ∈ (getPmdMavenParameters config).1.Defines,
      beginsWith "-Dpmd.failurePriority=" s = false := by
    have h1 : ∀ x : String, beginsWith "-Dpmd.failurePriority="
        ("-Dpmd.maxAllowedViolations=" ++ x) = false := by
      intro x; simp [beginsWith, String.data_append, List.isPrefixOf]
    unfold getPmdMavenParameters
    by_cases hn : config.PmdMaxAllowedViolations = 0 <;> simp [hn, hz, hout2, h1]
  have hmod : ∀ s ∈ modulesExcludeParams config.MavenModulesExcludes,
      beginsWith "-Dpmd.failurePriority=" s = false := by
    have hf := filter_modulesExcludeParams "-Dpmd.failurePriority=" config.MavenModulesExcludes
      (by decide) (fun m => by simp [beginsWith, String.data_append, List.isPrefixOf])
    intro s hsm
    by_contra hb
    have : s ∈ (modulesExcludeParams config.MavenModulesExcludes).filter
        (beginsWith "-Dpmd.failurePriority=") :=
      List.mem_filter.mpr ⟨hsm, by simpa using hb⟩
    rw [hf] at this
    exact List.not_mem_nil _ this
  have hwarn : (getPmdMavenParameters config).2
      = ["Pmd failure priority must be a value between 1 and 5. "
          ++ Itoa config.PmdFailurePriority ++ " was configured. Defaulting to 5."] := by
    unfold getPmdMavenParameters
    by_cases hn : config.PmdMaxAllowedViolations = 0 <;> simp [hn, hz, hout2]
  refine ⟨consolidatedPlan env config w, run_reaches_execCalls env config w h, ?_, ?_, ?_⟩
  · simp [consolidatedPlan, hs, hp, getPmdMavenParameters]
  · intro s hsd
    have hd : (consolidatedPlan env config w).Defines
        = env.GetTestModulesExcludes (worldAfterInstall env config w)
          ++ modulesExcludeParams config.MavenModulesExcludes
          ++ (getPmdMavenParameters config).1.Defines := by
      simp [consolidatedPlan, exclusionParams, hs, hp]
    rw [hd] at hsd
    rcases List.mem_append.mp hsd with hsd | hsd
    · rcases List.mem_append.mp hsd with hsd | hsd
      · exact ht s hsd
      · exact hmod s hsd
    · exact hpmd s hsd
  · rw [run_reaches_warnings env config w h, hp, if_pos rfl, hwarn]

theorem C13_pmd_out_of_range_scenario_witness :
    ∃ plan, execCalls (runMavenStaticCodeChecks failingExecutor pmdOnlyConfig 0).trace = [plan]
      ∧ plan.Goals = ["org.apache.maven.plugins:maven-pmd-plugin:3.13.0:check"]
      ∧ (∀ s ∈ plan.Defines, beginsWith "-Dpmd.failurePriority=" s = false)
      ∧ warnings (runMavenStaticCodeChecks failingExecutor pmdOnlyConfig 0).trace
          = ["Pmd failure priority must be a value between 1 and 5. 7 was configured. Defaulting to 5."] :=
  C13_pmd_out_of_range_scenario failingExecutor pmdOnlyConfig 0 rfl rfl (by decide) (by decide)
    (by decide) (by decide)

/-- C14: with collaborators whose results do not depend on the world they are called in
(the same install error, the same test-module excludes, the same executor error for the
same options), two runs with the same configuration, started in any two worlds, so also
one after the other, perform the same actions, hand the executor the same plans, goals,
defines and environment fields alike, and return the same error. -/
theorem C14_runs_are_reproducible {σ ε : Type} (env : Collaborators σ ε)
    (config : mavenExecuteStaticCodeChecksOptions) (w w' : σ)
    (hI : ∀ o s s', (env.InstallMavenArtifacts o s).1 = (env.InstallMavenArtifacts o s').1)
    (hT : ∀ s s', env.GetTestModulesExcludes s = env.GetTestModulesExcludes s')
    (hE : ∀ o s s', (env.Execute o s).1 = (env.Execute o s').1) :
    (runMavenStaticCodeChecks env config w).trace = (runMavenStaticCodeChecks env config w').trace
      ∧ execCalls (runMavenStaticCodeChecks env config w).trace
          = execCalls (runMavenStaticCodeChecks env config w').trace
      ∧ (runMavenStaticCodeChecks env config w).err
          = (runMavenStaticCodeChecks env config w').err := by
  have hie : installError env config w = installError env config w' := by
    unfold installError
    rcases hi : config.InstallArtifacts
    · simp
    · simpa using hI (installOptions config) w w'
  have hplan : consolidatedPlan env config w = consolidatedPlan env config w' := by
    unfold consolidatedPlan exclusionParams
    rw [hT (worldAfterInstall env config w) (worldAfterInstall env config w')]
  have key : (runMavenStaticCodeChecks env config w).trace
        = (runMavenStaticCodeChecks env config w').trace
      ∧ (runMavenStaticCodeChecks env config w).err
        = (runMavenStaticCodeChecks env config w').err := by
    rcases run_trichotomy env config w with ⟨hs, hp⟩ | ⟨hc, _, e, he⟩ | h
    · rw [run_skip env config w hs hp, run_skip env config w' hs hp]
      exact ⟨rfl, rfl⟩
    · rw [run_install_failed env config w e hc he,
        run_install_failed env config w' e hc (hie ▸ he)]
      exact ⟨rfl, rfl⟩
    · have h' : reachesInvocation env config w' := ⟨h.1, hie ▸ h.2⟩
      rw [run_reaches env config w h, run_reaches env config w' h', hplan]
      exact ⟨rfl, hE _ _ _⟩
  exact ⟨key.1, by rw [key.1], key.2⟩

theorem C14_runs_are_reproducible_witness :
    execCalls (runMavenStaticCodeChecks steadyCollaborators sampleConfig 0).trace
        = execCalls (runMavenStaticCodeChecks steadyCollaborators sampleConfig
            (runMavenStaticCodeChecks steadyCollaborators sampleConfig 0).world).trace
      ∧ (runMavenStaticCodeChecks steadyCollaborators sampleConfig 0).err
        = (runMavenStaticCodeChecks steadyCollaborators sampleConfig
            (runMavenStaticCodeChecks steadyCollaborators sampleConfig 0).world).err
      ∧ (runMavenStaticCodeChecks steadyCollaborators sampleConfig 0).world = 11
      ∧ (runMavenStaticCodeChecks steadyCollaborators sampleConfig 0).err = some "violations" :=
  ⟨(C14_runs_are_reproducible steadyCollaborators sampleConfig 0
      (runMavenStaticCodeChecks steadyCollaborators sampleConfig 0).world
      (fun _ _ _ => rfl) (fun _ _ => rfl) (fun _ _ _ => rfl)).2.1,
   (C14_runs_are_reproducible steadyCollaborators sampleConfig 0
      (runMavenStaticCodeChecks steadyCollaborators sampleConfig 0).world
      (fun _ _ _ => rfl) (fun _ _ => rfl) (fun _ _ _ => rfl)).2.2,
   by decide, by decide⟩

/-- C15: every goal list a run hands to the executor is non-empty and free of
duplicates, and its length is the number of enabled checks, which is one or two. -/
theorem C15_goals_nonempty_distinct {σ ε : Type} (env : Collaborators σ ε)
    (config : mavenExecuteStaticCodeChecksOptions) (w : σ) :
    ∀ plan ∈ execCalls (runMavenStaticCodeChecks env config w).trace,
      plan.Goals ≠ [] ∧ plan.Goals.Nodup
        ∧ plan.Goals.length
            = (if config.SpotBugs then 1 else 0) + (if config.Pmd then 1 else 0)
        ∧ 1 ≤ plan.Goals.length ∧ plan.Goals.length ≤ 2 := by
  intro plan hplan
  rcases run_trichotomy env config w with ⟨hs, hp⟩ | ⟨hc, _, e, he⟩ | h
  · rw [run_skip env config w hs hp] at hplan
    simp [execCalls] at hplan
  · rw [(run_install_failed_execCalls env config w e hc he).1] at hplan
    simp at hplan
  · rw [run_reaches_execCalls env config w h, List.mem_singleton] at hplan
    subst hplan
    obtain ⟨hc, _⟩ := h
    rcases hs : config.SpotBugs <;> rcases hp : config.Pmd
    · rw [hs, hp] at hc; simp at hc
    all_goals
      simp [consolidatedPlan, hs, hp, getSpotBugsMavenParameters, getPmdMavenParameters]

theorem C15_goals_nonempty_distinct_witness :
    ∃ plan, plan ∈ execCalls (runMavenStaticCodeChecks failingExecutor sampleConfig 0).trace
      ∧ plan.Goals ≠ [] ∧ plan.Goals.Nodup ∧ plan.Goals.length = 2 := by
  obtain ⟨plan, hx⟩ : ∃ plan,
      execCalls (runMavenStaticCodeChecks failingExecutor sampleConfig 0).trace = [plan] :=
    ⟨_, run_reaches_execCalls failingExecutor sampleConfig 0 (by decide)⟩
  have hm : plan ∈ execCalls (runMavenStaticCodeChecks failingExecutor sampleConfig 0).trace := by
    rw [hx]; exact List.mem_singleton.mpr rfl
  obtain ⟨h1, h2, h3, -⟩ := C15_goals_nonempty_distinct failingExecutor sampleConfig 0 plan hm
  exact ⟨plan, hm, h1, h2, h3⟩

/-- C16: the tuning fields of a disabled check do not reach the run.  With SpotBugs
disabled, changing the SpotBugs filter paths and threshold leaves the whole outcome of
the run as it is, and with PMD disabled so does changing the PMD threshold and failure
priority: same executor plan, same warnings, same error; with PMD disabled no
failure-priority warning is logged, whatever the configured priority. -/
theorem C16_disabled_check_does_not_interfere {σ ε : Type} (env : Collaborators σ ε)
    (config : mavenExecuteStaticCodeChecksOptions) (w : σ) :
    (config.SpotBugs = false → ∀ (incl excl : String) (n : Int),
        runMavenStaticCodeChecks env
            { config with SpotBugsIncludeFilterFile := incl, SpotBugsExcludeFilterFile := excl
                          SpotBugsMaxAllowedViolations := n } w
          = runMavenStaticCodeChecks env config w)
      ∧ (config.Pmd = false → ∀ (n p : Int),
        runMavenStaticCodeChecks env
            { config with PmdMaxAllowedViolations := n, PmdFailurePriority := p } w
          = runMavenStaticCodeChecks env config w)
      ∧ (config.Pmd = false →
        warnings (runMavenStaticCodeChecks env config w).trace
          = if config.SpotBugs then []
            else ["Neither SpotBugs nor Pmd are configured. Skipping step execution"]) := by
  refine ⟨fun hs incl excl n => ?_, fun hp n p => ?_, fun hp => ?_⟩
  · rcases hp : config.Pmd <;>
      simp [runMavenStaticCodeChecks, hs, hp, getPmdMavenParameters]
  · rcases hs : config.SpotBugs <;>
      simp [runMavenStaticCodeChecks, hs, hp, getSpotBugsMavenParameters]
  · rcases run_trichotomy env config w with ⟨hs, _⟩ | ⟨hc, _, e, he⟩ | h
    · rw [run_skip env config w hs hp, hs]
      simp [warnings]
    · rw [(run_install_failed_execCalls env config w e hc he).2.2]
      rcases hc with hs | hp'
      · simp [hs]
      · rw [hp] at hp'; exact Bool.noConfusion hp'
    · rw [run_reaches_warnings env config w h, hp]
      rcases h.1 with hs | hp'
      · simp [hs]
      · rw [hp] at hp'; exact Bool.noConfusion hp'

theorem C16_disabled_check_does_not_interfere_witness :
    runMavenStaticCodeChecks failingExecutor
        { spotBugsOnlyConfig with PmdMaxAllowedViolations := 3, PmdFailurePriority := 9 } 0
      = runMavenStaticCodeChecks failingExecutor spotBugsOnlyConfig 0
      ∧ warnings (runMavenStaticCodeChecks failingExecutor spotBugsOnlyConfig 0).trace = [] :=
  ⟨(C16_disabled_check_does_not_interfere failingExecutor spotBugsOnlyConfig 0).2.1 rfl 3 9,
   (C16_disabled_check_does_not_interfere failingExecutor spotBugsOnlyConfig 0).2.2 rfl⟩

end MavenStaticCodeChecks
